import Mathlib

/-!
Verification of the ebook backend (Flask + Postgres + remote generation).

The development shallowly embeds the persistent state (three tables:
book_projects, source_documents, chapters) and the route handlers of
backend.py that the claims concern: build_outline_for_project,
generate_chapter_draft, generate_chapters_for_project, transcribe_audio,
together with GPTService.chat from app/services/gpt_service.py and the
transcribe route from app/routes/transcribe_routes.py.

Remote services (the OpenAI chat and transcription calls) are modelled as
explicit function arguments; every operation additionally returns the list
of requests it sent to the remote service, so that properties of the form
"rejected before any remote call" and "no retry" are statable.  A raised
exception in the Python code (remote error, json.loads failure) is modelled
as the Except.error case of the remote oracle; psycopg commit/rollback is
modelled by returning either the updated or the original database value.
-/

namespace EbookBackend

/-- Models Python str.strip(): drop whitespace from both ends.  Defined over
the character list so that it evaluates by kernel reduction. -/
def pyStrip (s : String) : String :=
  ⟨((s.data.dropWhile Char.isWhitespace).reverse.dropWhile Char.isWhitespace).reverse⟩

/-- Models Python string slicing text[:n]: the first n characters.  Defined
over the character list so that it evaluates by kernel reduction. -/
def pyTake (s : String) (n : Nat) : String :=
  ⟨s.data.take n⟩

/-- Lexicographic comparison of character lists; used to model SQL ORDER BY
over the ISO-8601 timestamp strings stored in created_at columns. -/
def charListLe : List Char → List Char → Bool
  | [], _ => true
  | _ :: _, [] => false
  | a :: as, b :: bs => if a = b then charListLe as bs else decide (a < b)

/-- String comparison used for ORDER BY created_at ASC. -/
def strLe (a b : String) : Bool :=
  charListLe a.data b.data

/-- Models Python falsiness of an optional string column: NULL and the empty
string are falsy (used by the draft-pending test). -/
def pyFalsy (o : Option String) : Bool :=
  match o with
  | none => true
  | some s => s == ""

/-- Models a Python expression of the form x or default, for an optional
string x: NULL and the empty string fall back to the default. -/
def pyOr (o : Option String) (d : String) : String :=
  match o with
  | none => d
  | some s => if s == "" then d else s

/-- Row of the book_projects table (backend.py init_db). -/
structure ProjectRow where
  id : Nat
  title : String
  subtitle : Option String
  target_audience : Option String
  tone : Option String
  language : Option String
  word_count_target : Option Int
  outline_json : Option String
  created_at : String
  updated_at : String
deriving DecidableEq

/-- Row of the source_documents table. -/
structure SourceDocumentRow where
  id : Nat
  project_id : Nat
  label : Option String
  content_text : String
  created_at : String
  updated_at : String
deriving DecidableEq

/-- Row of the chapters table. -/
structure ChapterRow where
  id : Nat
  project_id : Nat
  chapter_order : Int
  title : String
  summary : Option String
  draft_text : Option String
  created_at : String
  updated_at : String
deriving DecidableEq

/-- The persistent database state.  chapters_seq models the SERIAL id
sequence for the chapters table (the only table the modelled operations
insert into). -/
structure DB where
  book_projects : List ProjectRow
  source_documents : List SourceDocumentRow
  chapters : List ChapterRow
  chapters_seq : Nat
deriving DecidableEq

/-- Source text limit in characters (backend.py, default of the
MAX_SOURCE_CHARS environment variable). -/
def MAX_SOURCE_CHARS : Nat := 4000

/-- Ordering relation for ORDER BY created_at ASC on source documents. -/
def createdLe (a b : SourceDocumentRow) : Prop :=
  strLe a.created_at b.created_at = true

instance : DecidableRel createdLe :=
  fun a b => inferInstanceAs (Decidable (strLe a.created_at b.created_at = true))

/-- Ordering relation for ORDER BY chapter_order ASC on chapters. -/
def chapterLe (a b : ChapterRow) : Prop :=
  a.chapter_order ≤ b.chapter_order

instance : DecidableRel chapterLe :=
  fun a b => inferInstanceAs (Decidable (a.chapter_order ≤ b.chapter_order))

instance : IsTotal ChapterRow chapterLe :=
  ⟨fun a b => Int.le_total a.chapter_order b.chapter_order⟩

instance : IsTrans ChapterRow chapterLe :=
  ⟨fun _ _ _ hab hbc => Int.le_trans hab hbc⟩

/-- Models SELECT * FROM source_documents WHERE project_id = pid
ORDER BY created_at ASC. -/
def sourceRowsFor (db : DB) (pid : Nat) : List SourceDocumentRow :=
  (db.source_documents.filter (fun r => r.project_id == pid)).insertionSort createdLe

/-- Models SELECT * FROM chapters WHERE project_id = pid
ORDER BY chapter_order ASC. -/
def chapterRowsFor (db : DB) (pid : Nat) : List ChapterRow :=
  (db.chapters.filter (fun c => c.project_id == pid)).insertionSort chapterLe

/-- Models limited_text as computed by build_outline_for_project and by
generate_chapters_for_project (backend.py lines 495 to 496 and 783 to 784):
join the ordered source texts with blank lines, strip, truncate. -/
def limited_source_text (db : DB) (pid : Nat) : String :=
  pyTake (pyStrip (String.intercalate "\n\n" ((sourceRowsFor db pid).map (·.content_text))))
    MAX_SOURCE_CHARS

/-- Models limited_text as computed by generate_chapter_draft (backend.py
lines 686 to 687): rows with empty content are skipped by the generator
expression, the join is not stripped, then truncate. -/
def draft_limited_source_text (db : DB) (pid : Nat) : String :=
  pyTake
    (String.intercalate "\n\n"
      (((sourceRowsFor db pid).filter (fun r => !(r.content_text == ""))).map
        (·.content_text))) MAX_SOURCE_CHARS

/-- One chapter stub as found in the parsed outline JSON, after the Python
coercions int(ch.get("order") or 0) and ch.get(key) or "" for the two text
fields (so a missing title or summary is the empty string here). -/
structure Stub where
  order : Int
  title : String
  summary : String
deriving DecidableEq

/-- Value found under the chapters key of the parsed outline JSON:
missing covers an absent, null or otherwise falsy value (the Python
expression outline_data.get("chapters") or [] turns those into []),
notList a truthy non-list value, and list an actual JSON array. -/
inductive ChaptersField
  | missing
  | notList
  | list (stubs : List Stub)
deriving DecidableEq

/-- Parsed outline JSON as consumed by build_outline_for_project; raw
models json.dumps(outline_data), the string stored on the project row. -/
structure OutlineData where
  chaptersField : ChaptersField
  raw : String
deriving DecidableEq

/-- The user prompt of build_outline_for_project (backend.py lines 500 to
520), with the source material at the end. -/
def outline_user_prompt (project : ProjectRow) (limited_text : String) : String :=
  "Create a structured JSON outline for an ebook based on the provided material.\n"
  ++ "The JSON must use this exact schema:\n\n"
  ++ "\x7b\n"
  ++ "  \"chapters\": [\n"
  ++ "    \x7b\n"
  ++ "      \"order\": 1,\n"
  ++ "      \"title\": \"Chapter title\",\n"
  ++ "      \"summary\": \"2-3 sentence summary of the chapter\"\n"
  ++ "    \x7d,\n"
  ++ "    ...\n"
  ++ "  ]\n"
  ++ "\x7d\n\n"
  ++ "Constraints:\n"
  ++ ("- Target audience: " ++ pyOr project.target_audience "Not specified" ++ "\n")
  ++ ("- Tone: " ++ pyOr project.tone "Business-professional" ++ "\n")
  ++ ("- Target language: " ++ pyOr project.language "en" ++ "\n")
  ++ "Make the number of chapters and structure appropriate for a serious ebook.\n\n"
  ++ "SOURCE MATERIAL:\n"
  ++ limited_text

/-- The insertion loop of build_outline_for_project (backend.py lines 541
to 559): stubs whose stripped title is empty are skipped with continue,
the others are inserted with draft_text NULL and ids drawn from the
chapters id sequence.  Returns the saved rows and the advanced sequence. -/
def insert_chapter_stubs (pid : Nat) (now : String) :
    List Stub → Nat → List ChapterRow × Nat
  | [], seq => ([], seq)
  | ch :: rest, seq =>
    let title := pyStrip ch.title
    if title == "" then insert_chapter_stubs pid now rest seq
    else
      let summary := if pyStrip ch.summary == "" then none else some (pyStrip ch.summary)
      let rec2 := insert_chapter_stubs pid now rest (seq + 1)
      (⟨seq, pid, ch.order, title, summary, none, now, now⟩ :: rec2.1, rec2.2)

/-- Reference form of the inserted rows: one row per stub of the already
filtered list (used to state that empty-titled stubs are dropped). -/
def stub_rows (pid : Nat) (now : String) : List Stub → Nat → List ChapterRow
  | [], _ => []
  | ch :: rest, seq =>
    ⟨seq, pid, ch.order, pyStrip ch.title,
      (if pyStrip ch.summary == "" then none else some (pyStrip ch.summary)),
      none, now, now⟩ :: stub_rows pid now rest (seq + 1)

/-- Outcome of POST /api/projects/(id)/build-outline. -/
inductive BuildOutlineResult
  | projectNotFound
  | noSourceDocuments
  | invalidChaptersList
  | buildFailed (msg : String)
  | success (outline : OutlineData) (chapters : List ChapterRow)
deriving DecidableEq

/-- Truth of the success case of a build-outline outcome. -/
def BuildOutlineResult.isSuccess : BuildOutlineResult → Bool
  | .success _ _ => true
  | _ => false

/-- Models build_outline_for_project (backend.py lines 463 to 579).  The
gen argument models the remote generation call composed with json.loads:
Except.error covers a raised exception in either (remote failure or
malformed JSON).  Returns the HTTP outcome, the committed database state
(the input state when the transaction rolls back or nothing was written),
and the list of prompts sent to the remote service. -/
def build_outline_for_project (gen : String → Except String OutlineData)
    (now : String) (project_id : Nat) (db : DB) :
    BuildOutlineResult × DB × List String :=
  match db.book_projects.find? (fun p => p.id == project_id) with
  | none => (.projectNotFound, db, [])
  | some project =>
    if (sourceRowsFor db project_id).isEmpty then (.noSourceDocuments, db, [])
    else
      let user_prompt := outline_user_prompt project (limited_source_text db project_id)
      match gen user_prompt with
      | .error e => (.buildFailed e, db, [user_prompt])
      | .ok outline_data =>
        match outline_data.chaptersField with
        | .list (s :: ss) =>
          let afterDelete := db.chapters.filter (fun c => !(c.project_id == project_id))
          let inserted := insert_chapter_stubs project_id now (s :: ss) db.chapters_seq
          let projects2 := db.book_projects.map (fun p =>
            if p.id == project_id then
              { p with outline_json := some outline_data.raw, updated_at := now }
            else p)
          let db2 : DB :=
            { book_projects := projects2,
              source_documents := db.source_documents,
              chapters := afterDelete ++ inserted.1,
              chapters_seq := inserted.2 }
          (.success outline_data (inserted.1.insertionSort chapterLe), db2, [user_prompt])
        | _ => (.invalidChaptersList, db, [user_prompt])

/-- The user prompt of generate_chapter_draft (backend.py lines 694 to
709), with the source material in the middle; the parenthesisation groups
the text before and after the embedded source text. -/
def draft_user_prompt (chapter : ChapterRow) (project : ProjectRow)
    (limited_text : String) : String :=
  "You are writing a chapter for an ebook.\n\n"
  ++ ("Book title: " ++ project.title ++ "\n")
  ++ ("Subtitle: " ++ pyOr project.subtitle "" ++ "\n")
  ++ ("Target audience: " ++ pyOr project.target_audience "Business readers" ++ "\n")
  ++ ("Tone: " ++ pyOr project.tone "Professional" ++ "\n")
  ++ ("Language: " ++ pyOr project.language "en" ++ "\n\n")
  ++ ("Chapter " ++ toString chapter.chapter_order ++ ": " ++ chapter.title ++ "\n")
  ++ ("Chapter summary:\n" ++ pyOr chapter.summary "No summary provided." ++ "\n\n")
  ++ "Source material from the author (notes, transcripts, etc.):\n"
  ++ (limited_text ++
      ("\n\n"
       ++ "Write a complete, well-structured draft of this chapter.\n"
       ++ "- 800–1,200 words.\n"
       ++ "- Use short paragraphs and helpful subheadings.\n"
       ++ "- Keep the tone business-professional and easy to read.\n"))

/-- Outcome of POST /api/chapters/(id)/generate-draft. -/
inductive DraftResult
  | chapterNotFound
  | draftFailed (details : String)
  | draftSuccess (chapter_id : Nat) (updated_at : String)
deriving DecidableEq

/-- Models generate_chapter_draft (backend.py lines 642 to 749): select the
chapter joined with its project (the inner join yields no row when either
is missing), build the prompt, call the remote service, and only on success
update draft_text and updated_at of that chapter. -/
def generate_chapter_draft (gen : String → Except String String)
    (now : String) (chapter_id : Nat) (db : DB) :
    DraftResult × DB × List String :=
  match db.chapters.find? (fun c => c.id == chapter_id) with
  | none => (.chapterNotFound, db, [])
  | some chapter =>
    match db.book_projects.find? (fun p => p.id == chapter.project_id) with
    | none => (.chapterNotFound, db, [])
    | some project =>
      let user_prompt :=
        draft_user_prompt chapter project (draft_limited_source_text db chapter.project_id)
      match gen user_prompt with
      | .error e => (.draftFailed e, db, [user_prompt])
      | .ok draft_text =>
        let chapters2 := db.chapters.map (fun c =>
          if c.id == chapter_id then { c with draft_text := some draft_text, updated_at := now }
          else c)
        (.draftSuccess chapter_id now, { db with chapters := chapters2 }, [user_prompt])

/-- The user prompt of generate_chapters_for_project (backend.py lines 804
to 820), with the source material in the middle. -/
def project_draft_user_prompt (project : ProjectRow) (target : ChapterRow)
    (limited_text : String) : String :=
  "You are writing a chapter for an ebook.\n\n"
  ++ ("Project title: " ++ project.title ++ "\n")
  ++ ("Subtitle: " ++ pyOr project.subtitle "" ++ "\n")
  ++ ("Target audience: " ++ pyOr project.target_audience "Not specified" ++ "\n")
  ++ ("Tone: " ++ pyOr project.tone "Business-professional" ++ "\n")
  ++ ("Language: " ++ pyOr project.language "en" ++ "\n\n")
  ++ ("Chapter " ++ toString target.chapter_order ++ ": " ++ target.title ++ "\n")
  ++ ("Chapter summary: " ++ pyOr target.summary "No summary provided." ++ "\n\n")
  ++ "Source material from the author (notes, transcripts, etc.):\n"
  ++ (limited_text ++
      ("\n\n"
       ++ "Write a complete, well-structured chapter based on the chapter title, "
       ++ "summary, and source material. Make it coherent, readable, and grounded "
       ++ "in the source material where possible.\n"
       ++ "- 800–1,200 words\n"
       ++ "- Use short paragraphs and subheadings\n"))

/-- Outcome of POST /api/projects/(id)/generate-chapters. -/
inductive GenerateChaptersResult
  | projectNotFound
  | noSourceDocuments
  | noChapters
  | allDrafted (message : String)
  | generateFailed (details : String)
  | generated (chapters : List ChapterRow)
deriving DecidableEq

/-- Models generate_chapters_for_project (backend.py lines 752 to 863):
one draft per call, for the first chapter in chapter_order whose draft is
NULL or empty; a success message and no mutation when none is pending. -/
def generate_chapters_for_project (gen : String → Except String String)
    (now : String) (project_id : Nat) (db : DB) :
    GenerateChaptersResult × DB × List String :=
  match db.book_projects.find? (fun p => p.id == project_id) with
  | none => (.projectNotFound, db, [])
  | some project =>
    if (sourceRowsFor db project_id).isEmpty then (.noSourceDocuments, db, [])
    else
      let chapter_rows := chapterRowsFor db project_id
      if chapter_rows.isEmpty then (.noChapters, db, [])
      else
        match chapter_rows.find? (fun c => pyFalsy c.draft_text) with
        | none => (.allDrafted "All chapters already have drafts.", db, [])
        | some target_chapter =>
          let user_prompt :=
            project_draft_user_prompt project target_chapter
              (limited_source_text db project_id)
          match gen user_prompt with
          | .error e => (.generateFailed e, db, [user_prompt])
          | .ok draft_text =>
            let chapters2 := db.chapters.map (fun c =>
              if c.id == target_chapter.id then
                { c with draft_text := some draft_text, updated_at := now }
              else c)
            let updated := (chapters2.find? (fun c => c.id == target_chapter.id)).toList
            (.generated updated, { db with chapters := chapters2 }, [user_prompt])

/-- Models path.startswith("./") over the character list. -/
def startsDotSlash (s : String) : Bool :=
  match s.data with
  | '.' :: '/' :: _ => true
  | _ => false

/-- Models the path normalisation of transcribe_audio (backend.py lines
210 to 211): a leading ./ is dropped. -/
def strip_leading_dot_slash (p : String) : String :=
  if startsDotSlash p then p.drop 2 else p

/-- Outcome of POST /api/transcribe (backend.py). -/
inductive TranscribeResult
  | missingPath
  | fileNotFound (path : String)
  | transcribed (transcript : String)
  | transcribeError (msg : String)
deriving DecidableEq

/-- Models transcribe_audio (backend.py lines 202 to 226).  fs is the set
of existing file paths, remote the transcription service (error = raised
exception carrying str(e)), body_path the optional path field of the JSON
body.  os.path.join of the base directory and a relative path is modelled
as concatenation with a slash.  The second component lists the paths for
which a remote transcription call was made. -/
def transcribe_audio (base_dir : String) (fs : List String)
    (remote : String → Except String String) (body_path : Option String) :
    TranscribeResult × List String :=
  let path0 := match body_path with | none => "" | some p => p
  if path0 == "" then (.missingPath, [])
  else
    let path := strip_leading_dot_slash path0
    let audio_path := base_dir ++ "/" ++ path
    if !(fs.contains audio_path) then (.fileNotFound path, [])
    else
      match remote audio_path with
      | .ok text => (.transcribed text, [audio_path])
      | .error e => (.transcribeError e, [audio_path])

/-- Outcome of POST /api/transcribe in app/routes/transcribe_routes.py. -/
inductive RouteTranscribeResult
  | filenameRequired
  | routeFileNotFound (path : String)
  | routeTranscribed (filename : String) (transcript : String)
  | routeError (msg : String)
deriving DecidableEq

/-- Models the transcribe route of app/routes/transcribe_routes.py lines 9
to 30: the file must exist under ./storage before the remote service is
called; a remote exception is surfaced as str(e). -/
def transcribe_route (fs : List String) (remote : String → Except String String)
    (body_filename : Option String) : RouteTranscribeResult × List String :=
  let filename := match body_filename with | none => "" | some f => f
  if filename == "" then (.filenameRequired, [])
  else
    let file_path := "./storage" ++ "/" ++ filename
    if !(fs.contains file_path) then (.routeFileNotFound file_path, [])
    else
      match remote file_path with
      | .ok t => (.routeTranscribed filename t, [file_path])
      | .error e => (.routeError e, [file_path])

/-- Primary model of GPTService (app/services/gpt_service.py). -/
def PRIMARY_MODEL : String := "gpt-5.1"

/-- Fallback model list of GPTService. -/
def FALLBACK_MODELS : List String := ["gpt-4.1", "gpt-4.1-mini"]

/-- The loop of GPTService.chat over models_to_try: the execute oracle
models GPTService._execute, which swallows the exception of a failed call
(logging it) and returns None; the first model that yields a response is
returned together with its name; when all models fail a RuntimeError with
a fixed message is raised.  The second component lists the models for
which a remote call was attempted. -/
def chat_try (execute : String → Option String) :
    List String → Except String (String × String) × List String
  | [] => (.error "All OpenAI models failed — check logs.", [])
  | model :: rest =>
    match execute model with
    | some content => (.ok (content, model), [model])
    | none =>
      let r := chat_try execute rest
      (r.1, model :: r.2)

/-- Models GPTService.chat (app/services/gpt_service.py lines 76 to 126)
in the non-streaming case. -/
def GPTService.chat (execute : String → Option String) :
    Except String (String × String) × List String :=
  chat_try execute (PRIMARY_MODEL :: FALLBACK_MODELS)

/-- Modelled from the words of the specification, for comparison with the
code: the source text the spec says is embedded in prompts, namely the
full ordered concatenation of the source documents of the project,
truncated to the character budget — with no stripping and no skipping of
empty documents. -/
def spec_source_text (db : DB) (pid : Nat) : String :=
  pyTake (String.intercalate "\n\n" ((sourceRowsFor db pid).map (·.content_text)))
    MAX_SOURCE_CHARS

/-- Concrete project row used by witnesses and counterexamples. -/
def projW : ProjectRow := ⟨1, "Book", none, none, none, some "en", none, none, "T0", "T0"⟩

/-- Concrete source document used by witnesses and counterexamples. -/
def srcW : SourceDocumentRow := ⟨1, 1, some "notes", "hello world", "T0", "T0"⟩

/-- Concrete already-drafted chapter used by witnesses and counterexamples. -/
def chOldW : ChapterRow := ⟨1, 1, 1, "Old", none, some "olddraft", "T0", "T0"⟩

/-- Concrete database with one project, one source document and one drafted
chapter. -/
def dbW : DB := ⟨[projW], [srcW], [chOldW], 2⟩

/-- Outline generation oracle that always fails (remote error or malformed
JSON). -/
def genErrW : String → Except String OutlineData := fun _ => .error "boom"

/-- Outline generation oracle returning a single stub with an empty title. -/
def genEmptyTitleW : String → Except String OutlineData :=
  fun _ => .ok ⟨.list [⟨1, "", ""⟩], "RAW"⟩

/-- Outline generation oracle returning one well-formed stub. -/
def genOkW : String → Except String OutlineData := fun _ => .ok ⟨.list [⟨1, "A", "s"⟩], "RAW"⟩

/-- Draft generation oracle that always fails. -/
def dgenErrW : String → Except String String := fun _ => .error "rate limit"

/-- Draft generation oracle that always succeeds. -/
def dgenOkW : String → Except String String := fun _ => .ok "DRAFT TEXT"

/-- Database with a project and a drafted chapter but no source documents. -/
def dbNoSrcW : DB := ⟨[projW], [], [chOldW], 2⟩

/-- Pending chapter of order 2 with NULL draft. -/
def chPend2W : ChapterRow := ⟨2, 1, 2, "Two", none, none, "T0", "T0"⟩

/-- Pending chapter of order 3 with empty-string draft. -/
def chPend3W : ChapterRow := ⟨3, 1, 3, "Three", none, some "", "T0", "T0"⟩

/-- Database with one drafted and two pending chapters. -/
def dbPendW : DB := ⟨[projW], [srcW], [chOldW, chPend3W, chPend2W], 4⟩

/-- Source document whose text has a leading space, for the truncation
claim. -/
def srcSpaceW : SourceDocumentRow := ⟨1, 1, some "notes", " x", "T0", "T0"⟩

/-- Database for the truncation counterexample. -/
def dbSpaceW : DB := ⟨[projW], [srcSpaceW], [], 1⟩

/-- Transcription oracle that always fails. -/
def trErrW : String → Except String String := fun _ => .error "api down"

/-!  General lemmas about the modelling helpers. -/

/-- charListLe is reflexive. -/
theorem charListLe_refl : ∀ l : List Char, charListLe l l = true
  | [] => rfl
  | a :: as => by simp [charListLe, charListLe_refl as]

/-- charListLe is total. -/
theorem charListLe_total : ∀ a b : List Char, charListLe a b = true ∨ charListLe b a = true := by
  intro a
  induction a with
  | nil => intro b; left; rfl
  | cons x xs ih =>
    intro b
    cases b with
    | nil => right; rfl
    | cons y ys =>
      by_cases hxy : x = y
      · subst hxy
        rcases ih ys with h | h
        · left; simpa [charListLe] using h
        · right; simpa [charListLe] using h
      · rcases Ne.lt_or_lt hxy with h | h
        · left; simp [charListLe, hxy, h]
        · right; simp [charListLe, Ne.symm hxy, h]

/-- charListLe is transitive. -/
theorem charListLe_trans :
    ∀ a b c : List Char, charListLe a b = true → charListLe b c = true →
      charListLe a c = true := by
  intro a
  induction a with
  | nil => intro b c _ _; rfl
  | cons x xs ih =>
    intro b c hab hbc
    cases b with
    | nil => simp [charListLe] at hab
    | cons y ys =>
      cases c with
      | nil => simp [charListLe] at hbc
      | cons z zs =>
        by_cases hxy : x = y <;> by_cases hyz : y = z
        · subst hxy; subst hyz
          simp only [charListLe, if_pos rfl] at hab hbc ⊢
          exact ih ys zs hab hbc
        · subst hxy
          simp only [charListLe, if_pos rfl, if_neg hyz, decide_eq_true_eq] at hbc ⊢
          simp [charListLe, ne_of_lt hbc, hbc]
        · subst hyz
          simp only [charListLe, if_neg hxy, decide_eq_true_eq] at hab
          simp [charListLe, ne_of_lt hab, hab]
        · simp only [charListLe, if_neg hxy, decide_eq_true_eq] at hab
          simp only [charListLe, if_neg hyz, decide_eq_true_eq] at hbc
          have hxz : x < z := lt_trans hab hbc
          simp [charListLe, ne_of_lt hxz, hxz]

instance : IsTotal SourceDocumentRow createdLe :=
  ⟨fun a b => charListLe_total a.created_at.data b.created_at.data⟩

instance : IsTrans SourceDocumentRow createdLe :=
  ⟨fun _ _ _ hab hbc => charListLe_trans _ _ _ hab hbc⟩

/-- In a sorted list, the element found by find? is minimal with respect to
the sorting relation among all elements satisfying the predicate. -/
theorem find?_min_of_sorted {α : Type} {r : α → α → Prop} (hrefl : ∀ a, r a a)
    {p : α → Bool} :
    ∀ {l : List α}, l.Sorted r → ∀ {c : α}, l.find? p = some c →
      ∀ x ∈ l, p x = true → r c x := by
  intro l
  induction l with
  | nil => intro _ c hc; simp at hc
  | cons hd tl ih =>
    intro hs c hfind x hx hpx
    rw [List.sorted_cons] at hs
    by_cases hp : p hd = true
    · rw [List.find?_cons_of_pos _ hp] at hfind
      injection hfind with h
      subst h
      rcases List.mem_cons.mp hx with h | h
      · subst h; exact hrefl x
      · exact hs.1 x h
    · rw [List.find?_cons_of_neg _ hp] at hfind
      rcases List.mem_cons.mp hx with h | h
      · subst h; exact absurd hpx hp
      · exact ih hs.2 hfind x h hpx

/-- The rows inserted by the stub loop are exactly one row per stub whose
stripped title is non-empty: empty-titled stubs are dropped silently. -/
theorem insert_chapter_stubs_eq (pid : Nat) (now : String) :
    ∀ (l : List Stub) (seq : Nat),
      (insert_chapter_stubs pid now l seq).1 =
        stub_rows pid now (l.filter (fun s => !(pyStrip s.title == ""))) seq := by
  intro l
  induction l with
  | nil => intro seq; rfl
  | cons s rest ih =>
    intro seq
    cases h : (pyStrip s.title == "") with
    | true => simp [insert_chapter_stubs, h, List.filter_cons, ih]
    | false => simp [insert_chapter_stubs, h, List.filter_cons, stub_rows, ih]

/-- Every row produced by the stub insertion loop belongs to the project,
starts with an absent draft and carries the build timestamp. -/
theorem insert_chapter_stubs_mem (pid : Nat) (now : String) :
    ∀ (l : List Stub) (seq : Nat), ∀ c ∈ (insert_chapter_stubs pid now l seq).1,
      c.project_id = pid ∧ c.draft_text = none ∧ c.created_at = now := by
  intro l
  induction l with
  | nil => intro seq c hc; simp [insert_chapter_stubs] at hc
  | cons s rest ih =>
    intro seq c hc
    by_cases h : (pyStrip s.title == "") = true
    · rw [insert_chapter_stubs] at hc
      simp only [h, if_true] at hc
      exact ih seq c hc
    · rw [insert_chapter_stubs] at hc
      simp only [if_neg h] at hc
      rcases List.mem_cons.mp hc with hh | hh
      · subst hh; exact ⟨rfl, rfl, rfl⟩
      · exact ih (seq + 1) c hh

/-- Filtering by a predicate after keeping only its complement yields
nothing. -/
theorem filter_not_filter {α : Type} (p : α → Bool) (l : List α) :
    (l.filter (fun a => !(p a))).filter p = [] := by
  induction l with
  | nil => rfl
  | cons x xs ih =>
    by_cases h : p x = true
    · simp [List.filter_cons, h, ih]
    · simp [List.filter_cons, h, ih]

/-- Filtering by the complement of a predicate is idempotent. -/
theorem filter_not_idem {α : Type} (p : α → Bool) (l : List α) :
    (l.filter (fun a => !(p a))).filter (fun a => !(p a)) =
      l.filter (fun a => !(p a)) := by
  induction l with
  | nil => rfl
  | cons x xs ih =>
    by_cases h : p x = true
    · simp [List.filter_cons, h, ih]
    · simp [List.filter_cons, h, ih]

/-!  Claim theorems. -/

/-- C1: the three-step write of the outline build (delete the existing
chapters of the project, insert the new stubs, store the outline JSON on
the project) is atomic from the point of view of the caller: whenever the
operation does not succeed — in particular on a remote generation error, on
malformed JSON (both the Except.error case of the oracle), and on a
missing, non-list or empty chapters list — the committed database, hence
the project record and its chapter set, is exactly the input state, and
nothing partial is written. -/
theorem C1_build_outline_atomic_on_failure
    (gen : String → Except String OutlineData) (now : String) (project_id : Nat) (db : DB)
    (r : BuildOutlineResult) (db2 : DB) (calls : List String)
    (heq : build_outline_for_project gen now project_id db = (r, db2, calls))
    (hfail : r.isSuccess = false) :
    db2 = db := by
  simp only [build_outline_for_project] at heq
  split at heq
  · obtain ⟨rfl, rfl, rfl⟩ := (Prod.mk.injEq ..).mp heq |>.imp id (Prod.mk.injEq ..).mp
    rfl
  · split at heq
    · obtain ⟨rfl, rfl, rfl⟩ := (Prod.mk.injEq ..).mp heq |>.imp id (Prod.mk.injEq ..).mp
      rfl
    · split at heq
      · obtain ⟨rfl, rfl, rfl⟩ := (Prod.mk.injEq ..).mp heq |>.imp id (Prod.mk.injEq ..).mp
        rfl
      · split at heq
        · obtain ⟨rfl, rfl, rfl⟩ := (Prod.mk.injEq ..).mp heq |>.imp id (Prod.mk.injEq ..).mp
          simp [BuildOutlineResult.isSuccess] at hfail
        · obtain ⟨rfl, rfl, rfl⟩ := (Prod.mk.injEq ..).mp heq |>.imp id (Prod.mk.injEq ..).mp
          rfl

/-- C1 witness: on a concrete database, with an always-failing generation
oracle, the committed state equals the input state. -/
theorem C1_build_outline_atomic_on_failure_witness :
    (build_outline_for_project genErrW "T1" 1 dbW).2.1 = dbW :=
  C1_build_outline_atomic_on_failure genErrW "T1" 1 dbW
    (build_outline_for_project genErrW "T1" 1 dbW).1
    (build_outline_for_project genErrW "T1" 1 dbW).2.1
    (build_outline_for_project genErrW "T1" 1 dbW).2.2
    rfl (by decide)

/-- C6: for a project that exists but has zero source documents, the
outline build always fails with the no-source-documents error, makes no
remote generation call, and leaves the database — in particular the
chapter set of the project — unchanged. -/
theorem C6_no_sources_rejected_before_remote
    (gen : String → Except String OutlineData) (now : String) (pid : Nat) (db : DB)
    (project : ProjectRow)
    (hp : db.book_projects.find? (fun p => p.id == pid) = some project)
    (hs : db.source_documents.filter (fun r => r.project_id == pid) = []) :
    build_outline_for_project gen now pid db = (.noSourceDocuments, db, []) := by
  have hempty : (sourceRowsFor db pid).isEmpty = true := by
    unfold sourceRowsFor
    rw [hs]
    rfl
  simp [build_outline_for_project, hp, hempty]

/-- C6 witness: on a concrete project with a chapter but no source
documents, the build fails with no remote call and no state change. -/
theorem C6_no_sources_rejected_before_remote_witness :
    build_outline_for_project genOkW "T1" 1 dbNoSrcW = (.noSourceDocuments, dbNoSrcW, []) :=
  C6_no_sources_rejected_before_remote genOkW "T1" 1 dbNoSrcW projW (by decide) (by decide)

/-- C2: single-chapter draft generation writes the draft field only after
the remote call succeeds.  Every failed outcome — in particular a remote
failure, reported as the draftFailed result carrying the underlying
message — leaves the database, hence the draft field of the chapter,
exactly as it was; a successful outcome writes into the draft field of the
target chapter precisely the text the remote call returned, so no error or
placeholder string is ever written into the persisted draft field. -/
theorem C2_draft_written_only_on_success
    (gen : String → Except String String) (now : String) (chapter_id : Nat) (db : DB)
    (r : DraftResult) (db2 : DB) (calls : List String)
    (heq : generate_chapter_draft gen now chapter_id db = (r, db2, calls)) :
    ((∀ e, r = .draftFailed e → db2 = db) ∧
     (∀ cid upd, r = .draftSuccess cid upd →
        ∃ p t, calls = [p] ∧ gen p = .ok t ∧
          db2.book_projects = db.book_projects ∧
          db2.source_documents = db.source_documents ∧
          db2.chapters = db.chapters.map (fun c =>
            if c.id == chapter_id then { c with draft_text := some t, updated_at := now }
            else c))) := by
  simp only [generate_chapter_draft] at heq
  split at heq
  · obtain ⟨rfl, rfl, rfl⟩ := (Prod.mk.injEq ..).mp heq |>.imp id (Prod.mk.injEq ..).mp
    refine ⟨?_, ?_⟩
    · intro e h; cases h
    · intro cid upd h; cases h
  · split at heq
    · obtain ⟨rfl, rfl, rfl⟩ := (Prod.mk.injEq ..).mp heq |>.imp id (Prod.mk.injEq ..).mp
      refine ⟨?_, ?_⟩
      · intro e h; cases h
      · intro cid upd h; cases h
    · split at heq
      · obtain ⟨rfl, rfl, rfl⟩ := (Prod.mk.injEq ..).mp heq |>.imp id (Prod.mk.injEq ..).mp
        refine ⟨?_, ?_⟩
        · intro e h; rfl
        · intro cid upd h; cases h
      · obtain ⟨rfl, rfl, rfl⟩ := (Prod.mk.injEq ..).mp heq |>.imp id (Prod.mk.injEq ..).mp
        rename_i draft_text hgen
        refine ⟨?_, ?_⟩
        · intro e h; cases h
        · intro cid upd h
          exact ⟨_, draft_text, rfl, hgen, rfl, rfl, rfl⟩

/-- C2 witness: a concrete failing remote call leaves the concrete database
unchanged. -/
theorem C2_draft_written_only_on_success_witness :
    (generate_chapter_draft dgenErrW "T1" 1 dbW).2.1 = dbW :=
  (C2_draft_written_only_on_success dgenErrW "T1" 1 dbW
    (generate_chapter_draft dgenErrW "T1" 1 dbW).1
    (generate_chapter_draft dgenErrW "T1" 1 dbW).2.1
    (generate_chapter_draft dgenErrW "T1" 1 dbW).2.2
    rfl).1 "rate limit" (by decide)

/-- C5: a successful outline rebuild discards every previously existing
chapter of the project and replaces them with the freshly inserted stub
rows, each of which belongs to the project and starts with an absent
draft; chapters of other projects are untouched. -/
theorem C5_rebuild_replaces_chapters
    (gen : String → Except String OutlineData) (now : String) (pid : Nat) (db : DB)
    (od : OutlineData) (saved : List ChapterRow) (db2 : DB) (calls : List String)
    (heq : build_outline_for_project gen now pid db = (.success od saved, db2, calls)) :
    ∃ s ss, od.chaptersField = .list (s :: ss) ∧
      db2.chapters.filter (fun c => c.project_id == pid) =
        (insert_chapter_stubs pid now (s :: ss) db.chapters_seq).1 ∧
      (∀ c ∈ (insert_chapter_stubs pid now (s :: ss) db.chapters_seq).1,
        c.draft_text = none ∧ c.project_id = pid) ∧
      db2.chapters.filter (fun c => !(c.project_id == pid)) =
        db.chapters.filter (fun c => !(c.project_id == pid)) := by
  simp only [build_outline_for_project] at heq
  split at heq
  · cases ((Prod.mk.injEq ..).mp heq).1
  · split at heq
    · cases ((Prod.mk.injEq ..).mp heq).1
    · split at heq
      · cases ((Prod.mk.injEq ..).mp heq).1
      · split at heq
        · rename_i s ss hfield
          obtain ⟨hres, hdb2, hcalls⟩ :=
            (Prod.mk.injEq ..).mp heq |>.imp id (Prod.mk.injEq ..).mp
          injection hres with hod hsaved
          subst hod
          subst hdb2
          dsimp only
          refine ⟨s, ss, hfield, ?_, ?_, ?_⟩
          · rw [List.filter_append, filter_not_filter]
            rw [List.nil_append]
            refine List.filter_eq_self.mpr ?_
            intro c hc
            have := (insert_chapter_stubs_mem pid now (s :: ss) db.chapters_seq c hc).1
            simp [this]
          · intro c hc
            have h3 := insert_chapter_stubs_mem pid now (s :: ss) db.chapters_seq c hc
            exact ⟨h3.2.1, h3.1⟩
          · rw [List.filter_append, filter_not_idem]
            have hnil : (insert_chapter_stubs pid now (s :: ss) db.chapters_seq).1.filter
                (fun c => !(c.project_id == pid)) = [] := by
              refine List.filter_eq_nil_iff.mpr ?_
              intro c hc
              have := (insert_chapter_stubs_mem pid now (s :: ss) db.chapters_seq c hc).1
              simp [this]
            rw [hnil, List.append_nil]
        · cases ((Prod.mk.injEq ..).mp heq).1

/-- C5 witness: a concrete successful rebuild on a database with one
previously drafted chapter yields exactly the fresh undrafted stub row. -/
theorem C5_rebuild_replaces_chapters_witness :
    ∃ s ss, (⟨.list [⟨1, "A", "s"⟩], "RAW"⟩ : OutlineData).chaptersField = .list (s :: ss) ∧
      (build_outline_for_project genOkW "T1" 1 dbW).2.1.chapters.filter
          (fun c => c.project_id == 1) =
        (insert_chapter_stubs 1 "T1" (s :: ss) dbW.chapters_seq).1 ∧
      (∀ c ∈ (insert_chapter_stubs 1 "T1" (s :: ss) dbW.chapters_seq).1,
        c.draft_text = none ∧ c.project_id = 1) ∧
      (build_outline_for_project genOkW "T1" 1 dbW).2.1.chapters.filter
          (fun c => !(c.project_id == 1)) =
        dbW.chapters.filter (fun c => !(c.project_id == 1)) :=
  C5_rebuild_replaces_chapters genOkW "T1" 1 dbW ⟨.list [⟨1, "A", "s"⟩], "RAW"⟩
    ((insert_chapter_stubs 1 "T1" [⟨1, "A", "s"⟩] dbW.chapters_seq).1.insertionSort chapterLe)
    (build_outline_for_project genOkW "T1" 1 dbW).2.1
    (build_outline_for_project genOkW "T1" 1 dbW).2.2
    rfl

/-- Helper: missing artifact makes transcribe_audio fail before any remote
call. -/
theorem transcribe_audio_notFound (base_dir : String) (fs : List String)
    (remote : String → Except String String) (p : String)
    (hne : (p == "") = false)
    (hmem : fs.contains (base_dir ++ "/" ++ strip_leading_dot_slash p) = false) :
    transcribe_audio base_dir fs remote (some p) =
      (.fileNotFound (strip_leading_dot_slash p), []) := by
  have hmem2 : ¬ (base_dir ++ "/" ++ strip_leading_dot_slash p) ∈ fs := by
    simpa using hmem
  simp [transcribe_audio, hne, hmem2]

/-- Helper: a remote transcription error is surfaced with the underlying
message after exactly one remote call. -/
theorem transcribe_audio_error (base_dir : String) (fs : List String)
    (remote : String → Except String String) (p m : String)
    (hne : (p == "") = false)
    (hmem : fs.contains (base_dir ++ "/" ++ strip_leading_dot_slash p) = true)
    (hr : remote (base_dir ++ "/" ++ strip_leading_dot_slash p) = .error m) :
    transcribe_audio base_dir fs remote (some p) =
      (.transcribeError m, [base_dir ++ "/" ++ strip_leading_dot_slash p]) := by
  have hmem2 : (base_dir ++ "/" ++ strip_leading_dot_slash p) ∈ fs := by
    simpa using hmem
  simp [transcribe_audio, hne, hmem2, hr]

/-- Helper: missing artifact makes the blueprint transcribe route fail
before any remote call. -/
theorem transcribe_route_notFound (fs : List String)
    (remote : String → Except String String) (f : String)
    (hne : (f == "") = false)
    (hmem : fs.contains ("./storage" ++ "/" ++ f) = false) :
    transcribe_route fs remote (some f) =
      (.routeFileNotFound ("./storage" ++ "/" ++ f), []) := by
  have hmem2 : ¬ ("./storage" ++ "/" ++ f) ∈ fs := by
    simpa using hmem
  simp [transcribe_route, hne]
  simp at hmem2
  simp [hmem2]

/-- Helper: the blueprint transcribe route surfaces a remote error after
exactly one remote call. -/
theorem transcribe_route_error (fs : List String)
    (remote : String → Except String String) (f m : String)
    (hne : (f == "") = false)
    (hmem : fs.contains ("./storage" ++ "/" ++ f) = true)
    (hr : remote ("./storage" ++ "/" ++ f) = .error m) :
    transcribe_route fs remote (some f) = (.routeError m, ["./storage" ++ "/" ++ f]) := by
  have hmem2 : ("./storage" ++ "/" ++ f) ∈ fs := by
    simpa using hmem
  have hr2 := hr
  simp at hmem2 hr2
  simp [transcribe_route, hne, hmem2, hr2]

/-- Helper: a failing remote draft call makes generate_chapter_draft fail
with the underlying message, exactly one remote call and no state change. -/
theorem generate_chapter_draft_error (gen : String → Except String String)
    (now : String) (cid : Nat) (db : DB) (ch : ChapterRow) (project : ProjectRow)
    (m : String)
    (hc : db.chapters.find? (fun c => c.id == cid) = some ch)
    (hpj : db.book_projects.find? (fun p => p.id == ch.project_id) = some project)
    (hg : gen (draft_user_prompt ch project (draft_limited_source_text db ch.project_id)) =
      .error m) :
    generate_chapter_draft gen now cid db =
      (.draftFailed m, db,
        [draft_user_prompt ch project (draft_limited_source_text db ch.project_id)]) := by
  simp [generate_chapter_draft, hc, hpj, hg]

/-- C9: a transcription request whose referenced audio artifact does not
exist at the referenced location fails fast with a file-not-found outcome
before any remote call is attempted; when the artifact exists and the
remote service errors, the underlying message is surfaced after exactly one
remote call (no retry).  Both transcribe handlers of the repository are
covered. -/
theorem C9_transcribe_artifact_checked_before_remote :
    (∀ (base_dir : String) (fs : List String) (remote : String → Except String String)
       (p : String), (p == "") = false →
        fs.contains (base_dir ++ "/" ++ strip_leading_dot_slash p) = false →
        transcribe_audio base_dir fs remote (some p) =
          (.fileNotFound (strip_leading_dot_slash p), [])) ∧
    (∀ (base_dir : String) (fs : List String) (remote : String → Except String String)
       (p m : String), (p == "") = false →
        fs.contains (base_dir ++ "/" ++ strip_leading_dot_slash p) = true →
        remote (base_dir ++ "/" ++ strip_leading_dot_slash p) = .error m →
        transcribe_audio base_dir fs remote (some p) =
          (.transcribeError m, [base_dir ++ "/" ++ strip_leading_dot_slash p])) ∧
    (∀ (fs : List String) (remote : String → Except String String) (f : String),
        (f == "") = false →
        fs.contains ("./storage" ++ "/" ++ f) = false →
        transcribe_route fs remote (some f) =
          (.routeFileNotFound ("./storage" ++ "/" ++ f), [])) ∧
    (∀ (fs : List String) (remote : String → Except String String) (f m : String),
        (f == "") = false →
        fs.contains ("./storage" ++ "/" ++ f) = true →
        remote ("./storage" ++ "/" ++ f) = .error m →
        transcribe_route fs remote (some f) = (.routeError m, ["./storage" ++ "/" ++ f])) :=
  ⟨transcribe_audio_notFound, transcribe_audio_error,
   transcribe_route_notFound, transcribe_route_error⟩

/-- C9 witness: a concrete missing file is rejected with no remote call. -/
theorem C9_transcribe_artifact_checked_before_remote_witness :
    transcribe_audio "/app" [] trErrW (some "storage/a.mp3") =
      (.fileNotFound (strip_leading_dot_slash "storage/a.mp3"), []) :=
  C9_transcribe_artifact_checked_before_remote.1 "/app" [] trErrW "storage/a.mp3"
    (by decide) (by decide)

/-- C10: a successful draft generation, single-chapter or next-pending,
mutates only the draft_text and updated_at fields of one target chapter:
the project rows (including the stored outline JSON), the source documents,
the id sequence, and — through the pointwise map — every other chapter row
are unchanged. -/
theorem C10_draft_success_frame :
    (∀ (gen : String → Except String String) (now : String) (cid : Nat) (db : DB)
       (cid2 : Nat) (upd : String) (db2 : DB) (calls : List String),
        generate_chapter_draft gen now cid db = (.draftSuccess cid2 upd, db2, calls) →
        ∃ t,
          db2.book_projects = db.book_projects ∧
          db2.source_documents = db.source_documents ∧
          db2.chapters_seq = db.chapters_seq ∧
          db2.chapters = db.chapters.map (fun c =>
            if c.id == cid then { c with draft_text := some t, updated_at := now }
            else c)) ∧
    (∀ (gen : String → Except String String) (now : String) (pid : Nat) (db : DB)
       (lst : List ChapterRow) (db2 : DB) (calls : List String),
        generate_chapters_for_project gen now pid db = (.generated lst, db2, calls) →
        ∃ tid t,
          db2.book_projects = db.book_projects ∧
          db2.source_documents = db.source_documents ∧
          db2.chapters_seq = db.chapters_seq ∧
          db2.chapters = db.chapters.map (fun c =>
            if c.id == tid then { c with draft_text := some t, updated_at := now }
            else c)) := by
  refine ⟨?_, ?_⟩
  · intro gen now cid db cid2 upd db2 calls heq
    simp only [generate_chapter_draft] at heq
    split at heq
    · cases ((Prod.mk.injEq ..).mp heq).1
    · split at heq
      · cases ((Prod.mk.injEq ..).mp heq).1
      · split at heq
        · cases ((Prod.mk.injEq ..).mp heq).1
        · obtain ⟨hres, hdb2, hcalls⟩ :=
            (Prod.mk.injEq ..).mp heq |>.imp id (Prod.mk.injEq ..).mp
          subst hdb2
          exact ⟨_, rfl, rfl, rfl, rfl⟩
  · intro gen now pid db lst db2 calls heq
    simp only [generate_chapters_for_project] at heq
    split at heq
    · cases ((Prod.mk.injEq ..).mp heq).1
    · split at heq
      · cases ((Prod.mk.injEq ..).mp heq).1
      · split at heq
        · cases ((Prod.mk.injEq ..).mp heq).1
        · split at heq
          · cases ((Prod.mk.injEq ..).mp heq).1
          · split at heq
            · cases ((Prod.mk.injEq ..).mp heq).1
            · obtain ⟨hres, hdb2, hcalls⟩ :=
                (Prod.mk.injEq ..).mp heq |>.imp id (Prod.mk.injEq ..).mp
              subst hdb2
              exact ⟨_, _, rfl, rfl, rfl, rfl⟩

/-- C10 witness: a concrete successful single-chapter draft changes only
the target chapter row. -/
theorem C10_draft_success_frame_witness :
    ∃ t,
      (generate_chapter_draft dgenOkW "T1" 1 dbW).2.1.book_projects = dbW.book_projects ∧
      (generate_chapter_draft dgenOkW "T1" 1 dbW).2.1.source_documents =
        dbW.source_documents ∧
      (generate_chapter_draft dgenOkW "T1" 1 dbW).2.1.chapters_seq = dbW.chapters_seq ∧
      (generate_chapter_draft dgenOkW "T1" 1 dbW).2.1.chapters = dbW.chapters.map (fun c =>
        if c.id == 1 then { c with draft_text := some t, updated_at := "T1" } else c) :=
  C10_draft_success_frame.1 dgenOkW "T1" 1 dbW 1 "T1"
    (generate_chapter_draft dgenOkW "T1" 1 dbW).2.1
    (generate_chapter_draft dgenOkW "T1" 1 dbW).2.2
    rfl

/-- C8 counterexample: when every model fails, GPTService.chat makes three
remote attempts for the one logical operation — an automatic retry across
the fallback models — and the raised message is the fixed generic text, not
the underlying error message (which _execute only logs).  This refutes the
claim that every upstream service error is surfaced with the underlying
message and that the remote call is never automatically retried. -/
theorem C8_counterexample :
    (GPTService.chat (fun _ => none)).2 = ["gpt-5.1", "gpt-4.1", "gpt-4.1-mini"] ∧
    (GPTService.chat (fun _ => none)).1 =
      Except.error "All OpenAI models failed — check logs." ∧
    ¬ (GPTService.chat (fun _ => none)).2.length ≤ 1 :=
  ⟨by decide, rfl, by decide⟩

/-- C8 (amended): the backend.py operations do surface the underlying
message with exactly one remote call and no retry — a failing
single-chapter draft generation and a failing next-pending generation
return it in the error details, a failing transcription in the error body;
GPTService.chat, by contrast, automatically falls back through the fixed
model sequence gpt-5.1, gpt-4.1, gpt-4.1-mini, returns the first success
with the model that produced it (one conjunct per position in the
sequence), and when every model fails raises the generic message instead
of the underlying one. -/
theorem C8_amended_upstream_error_policy :
    (∀ (gen : String → Except String String) (now : String) (cid : Nat) (db : DB)
       (ch : ChapterRow) (project : ProjectRow) (m : String),
        db.chapters.find? (fun c => c.id == cid) = some ch →
        db.book_projects.find? (fun p => p.id == ch.project_id) = some project →
        gen (draft_user_prompt ch project (draft_limited_source_text db ch.project_id)) =
          .error m →
        generate_chapter_draft gen now cid db =
          (.draftFailed m, db,
            [draft_user_prompt ch project (draft_limited_source_text db ch.project_id)])) ∧
    (∀ (base_dir : String) (fs : List String) (remote : String → Except String String)
       (p m : String), (p == "") = false →
        fs.contains (base_dir ++ "/" ++ strip_leading_dot_slash p) = true →
        remote (base_dir ++ "/" ++ strip_leading_dot_slash p) = .error m →
        transcribe_audio base_dir fs remote (some p) =
          (.transcribeError m, [base_dir ++ "/" ++ strip_leading_dot_slash p])) ∧
    (∀ (gen : String → Except String String) (now : String) (pid : Nat) (db : DB)
       (project : ProjectRow) (target : ChapterRow) (m : String),
        db.book_projects.find? (fun p => p.id == pid) = some project →
        (sourceRowsFor db pid).isEmpty = false →
        (chapterRowsFor db pid).isEmpty = false →
        (chapterRowsFor db pid).find? (fun c => pyFalsy c.draft_text) = some target →
        gen (project_draft_user_prompt project target (limited_source_text db pid)) =
          .error m →
        generate_chapters_for_project gen now pid db =
          (.generateFailed m, db,
            [project_draft_user_prompt project target (limited_source_text db pid)])) ∧
    (∀ (execute : String → Option String) (t : String),
        execute PRIMARY_MODEL = some t →
        GPTService.chat execute = (.ok (t, PRIMARY_MODEL), [PRIMARY_MODEL])) ∧
    (∀ (execute : String → Option String) (t : String),
        execute "gpt-5.1" = none → execute "gpt-4.1" = some t →
        GPTService.chat execute = (.ok (t, "gpt-4.1"), ["gpt-5.1", "gpt-4.1"])) ∧
    (∀ (execute : String → Option String) (t : String),
        execute "gpt-5.1" = none → execute "gpt-4.1" = none →
        execute "gpt-4.1-mini" = some t →
        GPTService.chat execute =
          (.ok (t, "gpt-4.1-mini"), ["gpt-5.1", "gpt-4.1", "gpt-4.1-mini"])) ∧
    (∀ execute : String → Option String,
        execute "gpt-5.1" = none → execute "gpt-4.1" = none →
        execute "gpt-4.1-mini" = none →
        GPTService.chat execute =
          (.error "All OpenAI models failed — check logs.",
            ["gpt-5.1", "gpt-4.1", "gpt-4.1-mini"])) := by
  refine ⟨generate_chapter_draft_error, transcribe_audio_error, ?_, ?_, ?_, ?_, ?_⟩
  · intro gen now pid db project target m hp hsrc hch htgt hg
    simp [generate_chapters_for_project, hp, hsrc, hch, htgt, hg]
  · intro execute t hexec
    simp only [PRIMARY_MODEL] at hexec
    simp [GPTService.chat, chat_try, PRIMARY_MODEL, FALLBACK_MODELS, hexec]
  · intro execute t h1 h2
    simp [GPTService.chat, chat_try, PRIMARY_MODEL, FALLBACK_MODELS, h1, h2]
  · intro execute t h1 h2 h3
    simp [GPTService.chat, chat_try, PRIMARY_MODEL, FALLBACK_MODELS, h1, h2, h3]
  · intro execute h1 h2 h3
    simp [GPTService.chat, chat_try, PRIMARY_MODEL, FALLBACK_MODELS, h1, h2, h3]

/-- C8 witness: with an oracle whose every model fails, chat returns the
generic failure after trying all three models. -/
theorem C8_amended_upstream_error_policy_witness :
    GPTService.chat (fun _ => none) =
      (.error "All OpenAI models failed — check logs.",
        ["gpt-5.1", "gpt-4.1", "gpt-4.1-mini"]) :=
  C8_amended_upstream_error_policy.2.2.2.2.2.2 (fun _ => none) rfl rfl rfl

/-- C3 counterexample: a generation result whose only stub has an empty
title makes the filtered list empty, yet the operation succeeds rather
than failing: the pre-existing chapter of the project is deleted and the
outline is stored, contradicting the claim that an empty filtered list
fails the whole operation with no chapters deleted and no state written. -/
theorem C3_counterexample :
    (build_outline_for_project genEmptyTitleW "T1" 1 dbW).1.isSuccess = true ∧
    (build_outline_for_project genEmptyTitleW "T1" 1 dbW).2.1.chapters = [] ∧
    dbW.chapters ≠ [] :=
  ⟨by decide, by decide, by decide⟩

/-- C3 (amended): the parsed result must contain a non-empty list under the
chapters key — a missing, non-list or empty value fails the operation with
no mutation; stubs whose stripped title is empty are dropped silently
rather than causing an error; but when the pre-filter list is non-empty
and every title is empty the operation still succeeds, deleting the
existing chapters of the project and leaving it with zero chapters while
the outline JSON is stored on the project row (whose updated_at is also
set) — only an empty pre-filter list fails. -/
theorem C3_amended_chapters_validation
    (gen : String → Except String OutlineData) (now : String) (pid : Nat) (db : DB)
    (project : ProjectRow) (od : OutlineData)
    (hp : db.book_projects.find? (fun p => p.id == pid) = some project)
    (hs : (sourceRowsFor db pid).isEmpty = false)
    (hg : gen (outline_user_prompt project (limited_source_text db pid)) = .ok od) :
    ((od.chaptersField = .missing ∨ od.chaptersField = .notList ∨
        od.chaptersField = .list []) →
      build_outline_for_project gen now pid db =
        (.invalidChaptersList, db,
          [outline_user_prompt project (limited_source_text db pid)])) ∧
    (∀ s ss, od.chaptersField = .list (s :: ss) →
      (build_outline_for_project gen now pid db).1 =
        .success od
          ((stub_rows pid now ((s :: ss).filter (fun t => !(pyStrip t.title == "")))
              db.chapters_seq).insertionSort chapterLe) ∧
      (build_outline_for_project gen now pid db).2.1.book_projects =
        db.book_projects.map (fun p =>
          if p.id == pid then { p with outline_json := some od.raw, updated_at := now }
          else p) ∧
      ((s :: ss).all (fun t => pyStrip t.title == "") = true →
        (build_outline_for_project gen now pid db).2.1.chapters.filter
            (fun c => c.project_id == pid) = [])) := by
  refine ⟨?_, ?_⟩
  · intro hbad
    rcases hbad with h | h | h <;>
      simp [build_outline_for_project, hp, hs, hg, h]
  · intro s ss hf
    have hfilter :
        (insert_chapter_stubs pid now (s :: ss) db.chapters_seq).1 =
          stub_rows pid now ((s :: ss).filter (fun t => !(pyStrip t.title == "")))
            db.chapters_seq :=
      insert_chapter_stubs_eq pid now (s :: ss) db.chapters_seq
    refine ⟨?_, ?_, ?_⟩
    · simp only [build_outline_for_project, hp, hs, hg, hf, Bool.false_eq_true, ite_false]
      rw [hfilter]
    · simp only [build_outline_for_project, hp, hs, hg, hf, Bool.false_eq_true, ite_false]
    · intro hall
      have hnil : (s :: ss).filter (fun t => !(pyStrip t.title == "")) = [] := by
        refine List.filter_eq_nil_iff.mpr ?_
        intro t ht
        have := List.all_eq_true.mp hall t ht
        simp [this]
      simp only [build_outline_for_project, hp, hs, hg, hf, Bool.false_eq_true, ite_false]
      simp only [List.filter_append, filter_not_filter, List.nil_append]
      rw [hfilter, hnil]
      rfl

/-- C3 witness: on a concrete database, a generation result whose only stub
has an empty title leaves the project with zero chapters. -/
theorem C3_amended_chapters_validation_witness :
    (build_outline_for_project genEmptyTitleW "T1" 1 dbW).2.1.chapters.filter
        (fun c => c.project_id == 1) = [] :=
  ((C3_amended_chapters_validation genEmptyTitleW "T1" 1 dbW projW
      ⟨.list [⟨1, "", ""⟩], "RAW"⟩ (by decide) (by decide) rfl).2
    ⟨1, "", ""⟩ [] rfl).2.2 (by decide)

/-- C4 counterexample: a project whose only chapter is already drafted but
which has zero source documents makes the next-pending operation fail with
the no-source-documents error instead of returning the success message the
claim promises for every project with at least one chapter. -/
theorem C4_counterexample :
    (generate_chapters_for_project dgenOkW "T1" 1 dbNoSrcW).1 = .noSourceDocuments ∧
    (generate_chapters_for_project dgenOkW "T1" 1 dbNoSrcW).1 ≠
      .allDrafted "All chapters already have drafts." :=
  ⟨by decide, by decide⟩

/-- C4 (amended): for a project with at least one chapter and at least one
source document, next-pending generation targets the first chapter in
ascending chapter_order whose draft is absent or empty: the target is a
pending chapter of the project whose order is minimal among all pending
chapters, and a successful generation updates exactly the rows with the
target id, leaving every other chapter untouched.  When no chapter is
pending the operation returns the fixed success message with no remote
call and no state change, and repeating it is idempotent.  (Without source
documents the operation instead fails; see the counterexample.) -/
theorem C4_amended_next_pending_selection
    (gen : String → Except String String) (now : String) (pid : Nat) (db : DB)
    (project : ProjectRow)
    (hp : db.book_projects.find? (fun p => p.id == pid) = some project)
    (hsrc : (sourceRowsFor db pid).isEmpty = false)
    (hch : (chapterRowsFor db pid).isEmpty = false) :
    ((chapterRowsFor db pid).find? (fun c => pyFalsy c.draft_text) = none →
      generate_chapters_for_project gen now pid db =
        (.allDrafted "All chapters already have drafts.", db, []) ∧
      generate_chapters_for_project gen now pid
          (generate_chapters_for_project gen now pid db).2.1 =
        generate_chapters_for_project gen now pid db) ∧
    (∀ target, (chapterRowsFor db pid).find? (fun c => pyFalsy c.draft_text) = some target →
      target ∈ db.chapters ∧ target.project_id = pid ∧
      pyFalsy target.draft_text = true ∧
      (∀ c ∈ db.chapters, c.project_id = pid → pyFalsy c.draft_text = true →
        target.chapter_order ≤ c.chapter_order) ∧
      (∀ t, gen (project_draft_user_prompt project target (limited_source_text db pid)) =
          .ok t →
        (generate_chapters_for_project gen now pid db).2.1.chapters =
          db.chapters.map (fun c =>
            if c.id == target.id then { c with draft_text := some t, updated_at := now }
            else c))) := by
  refine ⟨?_, ?_⟩
  · intro hnone
    have h1 : generate_chapters_for_project gen now pid db =
        (.allDrafted "All chapters already have drafts.", db, []) := by
      simp [generate_chapters_for_project, hp, hsrc, hch, hnone]
    refine ⟨h1, ?_⟩
    rw [h1]
    exact h1
  · intro target htgt
    have hmemSorted : target ∈ chapterRowsFor db pid := List.mem_of_find?_eq_some htgt
    have hmemFilter : target ∈ db.chapters.filter (fun c => c.project_id == pid) :=
      (List.perm_insertionSort chapterLe _).mem_iff.mp hmemSorted
    have hmem := List.mem_filter.mp hmemFilter
    have hpidEq : target.project_id = pid := by
      have := hmem.2
      simpa using this
    have hpend : pyFalsy target.draft_text = true :=
      @List.find?_some ChapterRow (fun c => pyFalsy c.draft_text) target
        (chapterRowsFor db pid) htgt
    refine ⟨hmem.1, hpidEq, hpend, ?_, ?_⟩
    · intro c hc hcpid hcpend
      have hcFilter : c ∈ db.chapters.filter (fun c => c.project_id == pid) :=
        List.mem_filter.mpr ⟨hc, by simpa using hcpid⟩
      have hcSorted : c ∈ chapterRowsFor db pid :=
        (List.perm_insertionSort chapterLe _).mem_iff.mpr hcFilter
      have hsorted : (chapterRowsFor db pid).Sorted chapterLe :=
        List.sorted_insertionSort chapterLe _
      exact @find?_min_of_sorted ChapterRow chapterLe (fun a => Int.le_refl a.chapter_order)
        (fun c => pyFalsy c.draft_text) (chapterRowsFor db pid) hsorted target htgt c
        hcSorted hcpend
    · intro t hg
      simp only [generate_chapters_for_project, hp, hsrc, hch, htgt, hg,
        Bool.false_eq_true, ite_false]

/-- C4 witness: on a concrete fully drafted project with a source document,
the operation returns the fixed message with no mutation and no remote
call. -/
theorem C4_amended_next_pending_selection_witness :
    generate_chapters_for_project dgenOkW "T1" 1 dbW =
      (.allDrafted "All chapters already have drafts.", dbW, []) :=
  ((C4_amended_next_pending_selection dgenOkW "T1" 1 dbW projW (by decide) (by decide)
      (by decide)).1 (by decide)).1

set_option maxRecDepth 8000 in
/-- C7 counterexample: on a source document whose text is " x" (leading
space), the text embedded in the outline prompt is the stripped "x", not
the bare truncated concatenation " x" the claim describes: the recorded
remote call differs from the one the claim predicts. -/
theorem C7_counterexample :
    (build_outline_for_project genErrW "T1" 1 dbSpaceW).2.2 =
      [outline_user_prompt projW (limited_source_text dbSpaceW 1)] ∧
    limited_source_text dbSpaceW 1 = "x" ∧
    spec_source_text dbSpaceW 1 = " x" ∧
    (build_outline_for_project genErrW "T1" 1 dbSpaceW).2.2 ≠
      [outline_user_prompt projW (spec_source_text dbSpaceW 1)] :=
  ⟨rfl, by decide, by decide, by decide⟩

/-- C7 (amended): MAX_SOURCE_CHARS defaults to 4000 characters; the source
rows are read in ascending creation order; the text embedded in the
outline and next-pending draft prompts is the blank-line concatenation of
those texts stripped of surrounding whitespace and then truncated to
MAX_SOURCE_CHARS characters, with material beyond the cap silently
dropped; the single-chapter draft prompt instead skips source documents
with empty text and truncates the unstripped concatenation.  Each prompt
embeds that text verbatim between fixed surrounding text. -/
theorem C7_amended_prompt_source_truncation :
    MAX_SOURCE_CHARS = 4000 ∧
    (∀ (db : DB) (pid : Nat), List.Sorted createdLe (sourceRowsFor db pid) ∧
      (sourceRowsFor db pid).Perm
        (db.source_documents.filter (fun r => r.project_id == pid))) ∧
    (∀ (db : DB) (pid : Nat), limited_source_text db pid =
      pyTake (pyStrip (String.intercalate "\n\n"
        ((sourceRowsFor db pid).map (·.content_text)))) MAX_SOURCE_CHARS) ∧
    (∀ (db : DB) (pid : Nat), draft_limited_source_text db pid =
      pyTake (String.intercalate "\n\n"
        (((sourceRowsFor db pid).filter (fun r => !(r.content_text == ""))).map
          (·.content_text))) MAX_SOURCE_CHARS) ∧
    (∀ (gen : String → Except String OutlineData) (now : String) (pid : Nat) (db : DB)
       (project : ProjectRow),
      db.book_projects.find? (fun p => p.id == pid) = some project →
      (sourceRowsFor db pid).isEmpty = false →
      ∃ pre, (build_outline_for_project gen now pid db).2.2 =
        [pre ++ limited_source_text db pid]) ∧
    (∀ (gen : String → Except String String) (now : String) (cid : Nat) (db : DB)
       (ch : ChapterRow) (project : ProjectRow),
      db.chapters.find? (fun c => c.id == cid) = some ch →
      db.book_projects.find? (fun p => p.id == ch.project_id) = some project →
      ∃ pre post, (generate_chapter_draft gen now cid db).2.2 =
        [pre ++ (draft_limited_source_text db ch.project_id ++ post)]) ∧
    (∀ (gen : String → Except String String) (now : String) (pid : Nat) (db : DB)
       (project : ProjectRow) (target : ChapterRow),
      db.book_projects.find? (fun p => p.id == pid) = some project →
      (sourceRowsFor db pid).isEmpty = false →
      (chapterRowsFor db pid).isEmpty = false →
      (chapterRowsFor db pid).find? (fun c => pyFalsy c.draft_text) = some target →
      ∃ pre post, (generate_chapters_for_project gen now pid db).2.2 =
        [pre ++ (limited_source_text db pid ++ post)]) := by
  refine ⟨rfl, ?_, fun db pid => rfl, fun db pid => rfl, ?_, ?_, ?_⟩
  · intro db pid
    exact ⟨List.sorted_insertionSort createdLe _, List.perm_insertionSort createdLe _⟩
  · intro gen now pid db project hp hs
    simp only [build_outline_for_project, hp, hs, Bool.false_eq_true, ite_false]
    rcases hgen : gen (outline_user_prompt project (limited_source_text db pid)) with e | od
    · simp only [hgen]
      exact ⟨_, rfl⟩
    · simp only [hgen]
      rcases hcf : od.chaptersField with _ | _ | stubs
      · simp only [hcf]
        exact ⟨_, rfl⟩
      · simp only [hcf]
        exact ⟨_, rfl⟩
      · cases stubs with
        | nil =>
          simp only [hcf]
          exact ⟨_, rfl⟩
        | cons s ss =>
          simp only [hcf]
          exact ⟨_, rfl⟩
  · intro gen now cid db ch project hc hpj
    simp only [generate_chapter_draft, hc, hpj]
    rcases hgen : gen (draft_user_prompt ch project
        (draft_limited_source_text db ch.project_id)) with e | t
    · simp only [hgen]
      exact ⟨_, _, rfl⟩
    · simp only [hgen]
      exact ⟨_, _, rfl⟩
  · intro gen now pid db project target hp hsrc hch htgt
    simp only [generate_chapters_for_project, hp, hsrc, hch, htgt,
      Bool.false_eq_true, ite_false]
    rcases hgen : gen (project_draft_user_prompt project target
        (limited_source_text db pid)) with e | t
    · simp only [hgen]
      exact ⟨_, _, rfl⟩
    · simp only [hgen]
      exact ⟨_, _, rfl⟩

/-- C7 witness: on a concrete database the outline build sends one prompt
ending in the stripped and truncated source text. -/
theorem C7_amended_prompt_source_truncation_witness :
    ∃ pre, (build_outline_for_project genErrW "T1" 1 dbW).2.2 =
      [pre ++ limited_source_text dbW 1] :=
  C7_amended_prompt_source_truncation.2.2.2.2.1 genErrW "T1" 1 dbW projW
    (by decide) (by decide)

end EbookBackend
